import Mathlib

/-!
Shallow embedding of `src/obsws.py` (obs-audio-fixer): the audio-device
resolution engine (`AudioDeviceManager`), the websocket control session
(`OBSWebsocket`) and the synchronization driver
(`set_audio_device_settings`), together with theorems settling the spec's
claims about them.

Conventions of the embedding:
* The host enumeration (`soundcard.all_speakers()` / `all_microphones()`)
  is a fixed snapshot `SoundEnv`, passed explicitly (the spec fixes the
  enumeration for the duration of one pass).
* Python exceptions become an `Except PyErr` layer; Python `None` results
  become an inner `Option`.
* `select_device` recurses through the mutable default names, so it takes
  a fuel argument; `none` (fuel exhausted at every fuel) models divergence.
* Console output (`print`) is modelled as a `List String` of the printed
  lines, RPC traffic as a `List WSEvent`.
-/

set_option autoImplicit false

namespace ObsAudioFixer

/-- A host audio device record: display name and opaque native id
(soundcard's `device.name` / `device.id`). -/
structure Device where
  name : String
  id : String
deriving DecidableEq, Repr

/-- A snapshot of the host enumeration: `soundcard.all_speakers()` and
`soundcard.all_microphones()`. -/
structure SoundEnv where
  speakers : List Device
  mics : List Device
deriving DecidableEq, Repr

/-- The `AudioDeviceManager` state: the two default device names taken
from the configuration (or the OS defaults) in `__init__`. -/
structure ADM where
  default_output : String
  default_input : String
deriving DecidableEq, Repr

/-- The attribute `select_device` filters on: `getattr(d, prop)` for
`prop` equal to `'name'` or `'id'`. -/
inductive DProp where
  | name
  | id
deriving DecidableEq, Repr

def getProp : DProp → Device → String
  | .name, d => d.name
  | .id, d => d.id

/-- Python exceptions that the embedded code can raise. -/
inductive PyErr where
  | indexError
  | valueError
  | attrError
deriving DecidableEq, Repr

/-- `AudioDeviceManager.select_device(prop, value, is_input)`.
Result: `none` = out of fuel (the Python call diverges when every fuel is
exhausted); `some (.error .indexError)` = the `device[0]` IndexError on an
empty filter; `some (.ok none)` = the Python `return None` taken in the
`is_input is None` branch for `value == 'default'`; `some (.ok (some d))`
= the first filtered device `device[0]`.  The recursive calls hard-code
`'name'` and, in both directed branches, `is_input=True`, exactly as in
the source (the output branch passing `True` is the source's line 51). -/
def select_device (env : SoundEnv) (adm : ADM) :
    Nat → DProp → String → Option Bool → Option (Except PyErr (Option Device))
  | 0, _, _, _ => none
  | fuel + 1, prop, value, is_input =>
    match is_input with
    | none =>
      if value = "default" then some (.ok none)
      else
        match (env.speakers ++ env.mics).filter (fun d => getProp prop d = value) with
        | [] => some (.error .indexError)
        | d :: _ => some (.ok (some d))
    | some true =>
      if value = "default" then
        select_device env adm fuel .name adm.default_input (some true)
      else
        match env.mics.filter (fun d => getProp prop d = value) with
        | [] => some (.error .indexError)
        | d :: _ => some (.ok (some d))
    | some false =>
      if value = "default" then
        select_device env adm fuel .name adm.default_output (some true)
      else
        match env.speakers.filter (fun d => getProp prop d = value) with
        | [] => some (.error .indexError)
        | d :: _ => some (.ok (some d))

/-- `AudioDeviceManager.get_default(is_input)`:
`select_device('name', 'default', is_input)`. -/
def get_default (env : SoundEnv) (adm : ADM) (fuel : Nat) (is_input : Bool) :
    Option (Except PyErr (Option Device)) :=
  select_device env adm fuel .name "default" (some is_input)

/-- `AudioDeviceManager.print_device_listing()` with `with_ids=False`:
the list of printed lines (template `'{1}'`, so just device names; each
non-empty section gets its header, empty sections print nothing). -/
def print_device_listing (env : SoundEnv) : List String :=
  (if env.speakers.isEmpty then []
   else "\nAvailable audio output devices:" :: env.speakers.map (fun d => d.name)) ++
  (if env.mics.isEmpty then []
   else "\nAvailable audio input devices:" :: env.mics.map (fun d => d.name))

/-- `AudioDeviceManager.device_by_name(name, is_input, replace_default)`.
Result pairs the Python outcome with the lines the call prints: on an
`IndexError` from the filter the source prints the not-found diagnostic
and the device listing and raises `ValueError`. The `replace_default`
shortcut for the literal name `'default'` delegates to `get_default`
outside the `try`, so an `IndexError` from there propagates unconverted. -/
def device_by_name (env : SoundEnv) (adm : ADM) (fuel : Nat) (name : String)
    (is_input : Bool := true) (replace_default : Bool := false) :
    Option (Except PyErr (Option Device) × List String) :=
  if replace_default ∧ name = "default" then
    (get_default env adm fuel is_input).map (fun r => (r, []))
  else
    match select_device env adm fuel .name name (some is_input) with
    | none => none
    | some (.error .indexError) =>
      some (.error .valueError,
        ("Windows does not have a device called " ++ name) :: print_device_listing env)
    | some (.error e) => some (.error e, [])
    | some (.ok d) => some (.ok d, [])

/-- `AudioDeviceManager.input_by_name(name, replace_default)`. -/
def input_by_name (env : SoundEnv) (adm : ADM) (fuel : Nat) (name : String)
    (replace_default : Bool := false) : Option (Except PyErr (Option Device) × List String) :=
  device_by_name env adm fuel name true replace_default

/-- `AudioDeviceManager.output_by_name(name, replace_default)`. -/
def output_by_name (env : SoundEnv) (adm : ADM) (fuel : Nat) (name : String)
    (replace_default : Bool := false) : Option (Except PyErr (Option Device) × List String) :=
  device_by_name env adm fuel name false replace_default

/-- The three values `device_by_id` can produce: a device record, the
Python `None`, or the literal string `'default'`. -/
inductive IdLookup where
  | dev (d : Device)
  | pynone
  | defaultStr
deriving DecidableEq, Repr

/-- `AudioDeviceManager.device_by_id(id)`: `select_device('id', id)` with
`is_input=None`; that branch never recurses, so fuel 1 is exact. On
`IndexError` the source returns the string `'default'` when
`id == 'default'` and `None` otherwise; a plain `None` return from
`select_device` is passed through as Python `None`. -/
def device_by_id (env : SoundEnv) (adm : ADM) (id : String) : IdLookup :=
  match select_device env adm 1 .id id none with
  | some (.ok none) => .pynone
  | some (.ok (some d)) => .dev d
  | some (.error _) => if id = "default" then .defaultStr else .pynone
  | none => .pynone

/-- Observable traffic of the `OBSWebsocket` session: transport-level
connect/disconnect (`self.ws.connect()` / `self.ws.disconnect()`) and RPC
calls (`self.ws.call(cmd, ...)`), each RPC tagged with the value of the
`connected` flag at the moment it is issued. -/
inductive WSEvent where
  | transportConnect
  | transportDisconnect
  | rpc (cmd : String) (connectedAtIssue : Bool)
deriving DecidableEq, Repr

/-- The remote controller as seen over the RPC channel: `special` is the
`GetSpecialSources` response as a mapping (indexing `result[device]`),
`sourcesList` its `.values()` after `del result['status']`, and
`deviceIdOf` the `sourceSettings.device_id` field of the
`GetSourceSettings` response for a source name. -/
structure Remote where
  special : String → String
  sourcesList : List String
  deviceIdOf : String → String

/-- `OBSWebsocket.connect()`: transport connect only when not already
connected, then set the flag. -/
def ws_connect (c : Bool) : Bool × List WSEvent :=
  if c then (c, []) else (true, [.transportConnect])

/-- `OBSWebsocket.disconnect()`: transport disconnect only when
connected, then clear the flag. -/
def ws_disconnect (c : Bool) : Bool × List WSEvent :=
  if c then (false, [.transportDisconnect]) else (c, [])

/-- `OBSWebsocket.call(*args)`: `await self.connect()` then
`self.ws.call(...)`. -/
def ws_call (c : Bool) (cmd : String) : Bool × List WSEvent :=
  let s1 := ws_connect c
  (s1.1, s1.2 ++ [.rpc cmd s1.1])

/-- `OBSWebsocket.get_audio_devices()`: connect, call
`GetSpecialSources`, return the response values. -/
def get_audio_devices (remote : Remote) (c : Bool) : Bool × List WSEvent × List String :=
  let s1 := ws_connect c
  (s1.1, s1.2 ++ [.rpc "GetSpecialSources" s1.1], remote.sourcesList)

/-- `OBSWebsocket.get_obs_audio_device_name(device)`: connect, call
`GetSpecialSources`, return `result[device]`. -/
def get_obs_audio_device_name (remote : Remote) (c : Bool) (device : String) :
    Bool × List WSEvent × String :=
  let s1 := ws_connect c
  (s1.1, s1.2 ++ [.rpc "GetSpecialSources" s1.1], remote.special device)

/-- `OBSWebsocket.get_audiodevice_settings(device_name)`: connect, call
`GetSourceSettings`; of the returned settings dict only the
`sourceSettings.device_id` field is consumed by callers, so the model
returns that field. -/
def get_audiodevice_settings (remote : Remote) (c : Bool) (device_name : String) :
    Bool × List WSEvent × String :=
  let s1 := ws_connect c
  (s1.1, s1.2 ++ [.rpc "GetSourceSettings" s1.1], remote.deviceIdOf device_name)

/-- The reporting loop body of `OBSWebsocket.print_sources_settings`: for
each source name fetch its settings, classify the `device_id` through
`device_by_id`, and print one line. Python's `if not device` is the
`None` case (records and non-empty strings are truthy). -/
def report_sources (env : SoundEnv) (adm : ADM) (remote : Remote) :
    Bool → List String → Bool × List WSEvent × List String
  | c, [] => (c, [], [])
  | c, n :: rest =>
    let s1 := get_audiodevice_settings remote c n
    let line :=
      match device_by_id env adm s1.2.2 with
      | .pynone => n ++ " is set to a device-id unknown to Windows: '" ++ s1.2.2 ++ "'"
      | .defaultStr => n ++ " is set to 'default'"
      | .dev d => n ++ " is set to '" ++ d.name ++ "'"
    let r := report_sources env adm remote s1.1 rest
    (r.1, s1.2.1 ++ r.2.1, line :: r.2.2)

/-- `OBSWebsocket.print_sources_settings(audio_device_manager)`: connect,
fetch the special-source names, then report each one. -/
def print_sources_settings (env : SoundEnv) (adm : ADM) (remote : Remote) (c : Bool) :
    Bool × List WSEvent × List String :=
  let s1 := ws_connect c
  let s2 := get_audio_devices remote s1.1
  let r := report_sources env adm remote s2.1 s2.2.2
  (r.1, s1.2 ++ s2.2.1 ++ r.2.1, r.2.2)

/-- One entry of the configuration's `inputs` / `outputs` lists. -/
structure RouteConf where
  obs_device : String
  device_name : String
deriving DecidableEq, Repr

/-- The configuration as consumed by `set_audio_device_settings`. -/
structure Config where
  inputs : List RouteConf
  outputs : List RouteConf
deriving DecidableEq, Repr

/-- How a (partial) synchronization pass ended: all routes applied, a
Python exception propagated out of the loop, or divergence inside
resolution. -/
inductive RunOutcome where
  | ok
  | err (e : PyErr)
  | diverge
deriving DecidableEq, Repr

/-- Result of (part of) a pass: the `SetSourceSettings` calls issued, as
`(sourceName, device_id)` pairs in order, and how the pass ended. -/
structure RunResult where
  calls : List (String × String)
  outcome : RunOutcome
deriving DecidableEq, Repr

/-- One direction group of `set_audio_device_settings`: for each route,
fetch the remote source label (`get_obs_audio_device_name`), resolve the
configured device name with `replace_default=True`, then `set_obs_source`
issues `SetSourceSettings{sourceName, sourceSettings:{device_id}}`.
There is no try/except around the loop body, so a `ValueError` (or a
propagating `IndexError`) from resolution ends the whole pass; an `.ok
none` device would crash `set_obs_source` on `device.name`
(AttributeError). -/
def run_routes (env : SoundEnv) (adm : ADM) (remote : Remote) (fuel : Nat)
    (is_input : Bool) : List RouteConf → RunResult
  | [] => ⟨[], .ok⟩
  | conf :: rest =>
    let source_name := remote.special conf.obs_device
    match device_by_name env adm fuel conf.device_name is_input true with
    | none => ⟨[], .diverge⟩
    | some (.error e, _) => ⟨[], .err e⟩
    | some (.ok none, _) => ⟨[], .err .attrError⟩
    | some (.ok (some d), _) =>
      let r := run_routes env adm remote fuel is_input rest
      ⟨(source_name, d.id) :: r.calls, r.outcome⟩

/-- `set_audio_device_settings(ws, config, adm)`: process all input
routes, then — only if no exception escaped the input loop — all output
routes. -/
def set_audio_device_settings (env : SoundEnv) (adm : ADM) (remote : Remote)
    (fuel : Nat) (config : Config) : RunResult :=
  let ri := run_routes env adm remote fuel true config.inputs
  match ri.outcome with
  | .ok =>
    let ro := run_routes env adm remote fuel false config.outputs
    ⟨ri.calls ++ ro.calls, ro.outcome⟩
  | o => ⟨ri.calls, o⟩

/-- The device id a route's name resolves to under
`device_by_name(..., replace_default=True)`, when resolution succeeds
with a device record. -/
def resolve_id (env : SoundEnv) (adm : ADM) (fuel : Nat) (is_input : Bool)
    (name : String) : Option String :=
  match device_by_name env adm fuel name is_input true with
  | some (.ok (some d), _) => some d.id
  | _ => none

/-- The `SetSourceSettings` call a route produces when its device name
resolves: the remote label for its `obs_device` paired with the resolved
device id. -/
def route_call (env : SoundEnv) (adm : ADM) (remote : Remote) (fuel : Nat)
    (is_input : Bool) (conf : RouteConf) : Option (String × String) :=
  (resolve_id env adm fuel is_input conf.device_name).map
    (fun i => (remote.special conf.obs_device, i))

/-- The devices `select_device` filters when a direction is requested:
microphones for inputs, speakers for outputs. -/
def dirDevices (env : SoundEnv) (is_input : Bool) : List Device :=
  if is_input then env.mics else env.speakers

lemma mem_print_device_listing (env : SoundEnv) (is_input : Bool) (d : Device)
    (hd : d ∈ dirDevices env is_input) : d.name ∈ print_device_listing env := by
  have hne : ∀ l : List Device, d ∈ l → ¬ l.isEmpty := by
    intro l hl h
    rw [List.isEmpty_iff] at h
    simp [h] at hl
  cases is_input with
  | false =>
    rw [dirDevices, if_neg (by simp)] at hd
    rw [print_device_listing, if_neg (hne _ hd)]
    exact List.mem_append_left _ (List.mem_cons_of_mem _ (List.mem_map_of_mem _ hd))
  | true =>
    rw [dirDevices, if_pos rfl] at hd
    rw [print_device_listing, if_neg (hne _ hd)]
    exact List.mem_append_right _ (List.mem_cons_of_mem _ (List.mem_map_of_mem _ hd))

/-- For a name other than the literal `'default'`, `select_device`
filters the direction's device list and either raises `IndexError` or
returns the first match. -/
lemma select_device_ne_default (env : SoundEnv) (adm : ADM) (fuel : Nat)
    (prop : DProp) (value : String) (b : Bool) (hv : value ≠ "default") :
    select_device env adm (fuel + 1) prop value (some b) =
      match (dirDevices env b).filter (fun d => getProp prop d = value) with
      | [] => some (.error .indexError)
      | d :: _ => some (.ok (some d)) := by
  cases b <;> simp only [select_device, dirDevices, if_neg hv] <;> simp

lemma device_by_name_of_filter (env : SoundEnv) (adm : ADM) (fuel : Nat)
    (n : String) (is_input rd : Bool) (hn : n ≠ "default") :
    device_by_name env adm (fuel + 1) n is_input rd =
      match (dirDevices env is_input).filter (fun d => d.name = n) with
      | [] => some (.error .valueError,
          ("Windows does not have a device called " ++ n) :: print_device_listing env)
      | d :: _ => some (.ok (some d), []) := by
  have hcond : ¬(rd = true ∧ n = "default") := by simp [hn]
  have hsel := select_device_ne_default env adm fuel .name n is_input hn
  simp only [getProp] at hsel
  unfold device_by_name
  rw [if_neg hcond, hsel]
  cases (dirDevices env is_input).filter (fun d => d.name = n) with
  | nil => rfl
  | cons d rest => rfl

lemma run_routes_single_err (env : SoundEnv) (adm : ADM) (remote : Remote)
    (fuel : Nat) (is_input : Bool) (conf : RouteConf) (e : PyErr) (out : List String)
    (h : device_by_name env adm fuel conf.device_name is_input true = some (.error e, out)) :
    run_routes env adm remote fuel is_input [conf] = ⟨[], .err e⟩ := by
  simp [run_routes, h]

lemma route_call_eq_some (env : SoundEnv) (adm : ADM) (remote : Remote)
    (fuel : Nat) (b : Bool) (conf : RouteConf) (d : Device) (out : List String)
    (h : device_by_name env adm fuel conf.device_name b true = some (.ok (some d), out)) :
    route_call env adm remote fuel b conf = some (remote.special conf.obs_device, d.id) := by
  simp [route_call, resolve_id, h]

lemma run_routes_ok_calls (env : SoundEnv) (adm : ADM) (remote : Remote)
    (fuel : Nat) (b : Bool) :
    ∀ routes : List RouteConf,
      (run_routes env adm remote fuel b routes).outcome = .ok →
      (run_routes env adm remote fuel b routes).calls =
        routes.filterMap (route_call env adm remote fuel b) := by
  intro routes
  induction routes with
  | nil => intro _; simp [run_routes]
  | cons conf rest ih =>
    intro h
    simp only [run_routes] at h ⊢
    cases hm : device_by_name env adm fuel conf.device_name b true with
    | none => rw [hm] at h; simp at h
    | some p =>
      obtain ⟨r, out⟩ := p
      cases r with
      | error e => rw [hm] at h; simp at h
      | ok od =>
        cases od with
        | none => rw [hm] at h; simp at h
        | some d =>
          rw [hm] at h
          simp at h
          simp [List.filterMap_cons,
            route_call_eq_some env adm remote fuel b conf d out hm, ih h]

lemma run_routes_stops (env : SoundEnv) (adm : ADM) (remote : Remote)
    (fuel : Nat) (b : Bool) (bad : RouteConf) (post : List RouteConf)
    (e : PyErr) (out : List String)
    (hbad : device_by_name env adm fuel bad.device_name b true = some (.error e, out)) :
    ∀ pre : List RouteConf,
      (∀ c ∈ pre, (route_call env adm remote fuel b c).isSome) →
      run_routes env adm remote fuel b (pre ++ bad :: post) =
        ⟨pre.filterMap (route_call env adm remote fuel b), .err e⟩ := by
  intro pre
  induction pre with
  | nil => intro _; simp [run_routes, hbad]
  | cons c pre ih =>
    intro hpre
    have hc : (route_call env adm remote fuel b c).isSome := hpre c (by simp)
    cases hm : device_by_name env adm fuel c.device_name b true with
    | none => simp [route_call, resolve_id, hm] at hc
    | some p =>
      obtain ⟨r, o⟩ := p
      cases r with
      | error e2 => simp [route_call, resolve_id, hm] at hc
      | ok od =>
        cases od with
        | none => simp [route_call, resolve_id, hm] at hc
        | some d =>
          have hrest := ih (fun x hx => hpre x (by simp [hx]))
          simp only [List.cons_append, run_routes, hm, List.append_eq, hrest,
            List.filterMap_cons, route_call_eq_some env adm remote fuel b c d o hm]

lemma select_device_default_true (env : SoundEnv) (adm : ADM) (fuel : Nat)
    (prop : DProp) :
    select_device env adm (fuel + 1) prop "default" (some true) =
      select_device env adm fuel .name adm.default_input (some true) := by
  simp [select_device]

lemma select_device_default_false (env : SoundEnv) (adm : ADM) (fuel : Nat)
    (prop : DProp) :
    select_device env adm (fuel + 1) prop "default" (some false) =
      select_device env adm fuel .name adm.default_output (some true) := by
  simp [select_device]

lemma select_device_diverges_input (env : SoundEnv) (adm : ADM)
    (h : adm.default_input = "default") :
    ∀ fuel, select_device env adm fuel .name "default" (some true) = none
  | 0 => rfl
  | fuel + 1 => by
    rw [select_device_default_true env adm fuel .name, h]
    exact select_device_diverges_input env adm h fuel

lemma select_device_none_eq (env : SoundEnv) (adm : ADM) (fuel : Nat)
    (prop : DProp) (value : String) (hv : value ≠ "default") :
    select_device env adm (fuel + 1) prop value none =
      match (env.speakers ++ env.mics).filter (fun d => getProp prop d = value) with
      | [] => some (.error .indexError)
      | d :: _ => some (.ok (some d)) := by
  simp only [select_device, if_neg hv]

lemma select_device_none_isSome (env : SoundEnv) (adm : ADM) (fuel : Nat)
    (prop : DProp) (value : String) :
    (select_device env adm (fuel + 1) prop value none).isSome := by
  by_cases hv : value = "default"
  · simp [select_device, hv]
  · simp only [select_device, if_neg hv]
    cases (env.speakers ++ env.mics).filter (fun d => getProp prop d = value) <;> simp

lemma select_device_some_ne_isSome (env : SoundEnv) (adm : ADM) (fuel : Nat)
    (prop : DProp) (value : String) (b : Bool) (hv : value ≠ "default") :
    (select_device env adm (fuel + 1) prop value (some b)).isSome := by
  rw [select_device_ne_default env adm fuel prop value b hv]
  cases (dirDevices env b).filter (fun d => getProp prop d = value) <;> simp

lemma select_device_fuel3_isSome (env : SoundEnv) (adm : ADM)
    (h : adm.default_input ≠ "default") (prop : DProp) (value : String)
    (is_input : Option Bool) :
    (select_device env adm 3 prop value is_input).isSome := by
  cases is_input with
  | none => exact select_device_none_isSome env adm 2 prop value
  | some b =>
    by_cases hv : value = "default"
    · subst hv
      cases b with
      | true =>
        have hstep : select_device env adm 3 prop "default" (some true) =
            select_device env adm 2 .name adm.default_input (some true) :=
          select_device_default_true env adm 2 prop
        rw [hstep]
        exact select_device_some_ne_isSome env adm 1 .name adm.default_input true h
      | false =>
        have hstep : select_device env adm 3 prop "default" (some false) =
            select_device env adm 2 .name adm.default_output (some true) :=
          select_device_default_false env adm 2 prop
        rw [hstep]
        by_cases hd : adm.default_output = "default"
        · rw [hd]
          have hstep2 : select_device env adm 2 .name "default" (some true) =
              select_device env adm 1 .name adm.default_input (some true) :=
            select_device_default_true env adm 1 .name
          rw [hstep2]
          exact select_device_some_ne_isSome env adm 0 .name adm.default_input true h
        · exact select_device_some_ne_isSome env adm 1 .name adm.default_output true hd
    · exact select_device_some_ne_isSome env adm 2 prop value b hv

lemma device_by_name_fuel3_isSome (env : SoundEnv) (adm : ADM)
    (h : adm.default_input ≠ "default") (name : String) (is_input rd : Bool) :
    (device_by_name env adm 3 name is_input rd).isSome := by
  unfold device_by_name
  by_cases hc : (rd = true ∧ name = "default")
  · rw [if_pos hc]
    unfold get_default
    rcases Option.isSome_iff_exists.1
      (select_device_fuel3_isSome env adm h .name "default" (some is_input)) with ⟨r, hr⟩
    simp [hr]
  · rw [if_neg hc]
    rcases Option.isSome_iff_exists.1
      (select_device_fuel3_isSome env adm h .name name (some is_input)) with ⟨r, hr⟩
    rw [hr]
    rcases r with e | od
    · cases e <;> simp
    · simp

/-- The session invariant the claims about `OBSWebsocket` use: every RPC
in an event trace was issued while the `connected` flag was set. -/
def rpcSafe (evs : List WSEvent) : Prop :=
  ∀ cmd b, WSEvent.rpc cmd b ∈ evs → b = true

lemma rpcSafe_nil : rpcSafe [] := by
  intro cmd b h
  simp at h

lemma rpcSafe_append {a c : List WSEvent} (ha : rpcSafe a) (hc : rpcSafe c) :
    rpcSafe (a ++ c) := by
  intro cmd b h
  rcases List.mem_append.1 h with h1 | h1
  exacts [ha cmd b h1, hc cmd b h1]

lemma ws_connect_fst (c : Bool) : (ws_connect c).1 = true := by
  cases c <;> rfl

lemma rpcSafe_ws_connect (c : Bool) : rpcSafe (ws_connect c).2 := by
  cases c <;> intro cmd b h <;> simp [ws_connect] at h

lemma rpcSafe_single (cmd : String) : rpcSafe [WSEvent.rpc cmd true] := by
  intro c b h
  simp at h
  exact h.2

lemma rpcSafe_ws_call (c : Bool) (cmd : String) : rpcSafe (ws_call c cmd).2 := by
  simp only [ws_call]
  exact rpcSafe_append (rpcSafe_ws_connect c)
    (by rw [ws_connect_fst]; exact rpcSafe_single cmd)

lemma rpcSafe_get_audio_devices (remote : Remote) (c : Bool) :
    rpcSafe (get_audio_devices remote c).2.1 := by
  simp only [get_audio_devices]
  exact rpcSafe_append (rpcSafe_ws_connect c)
    (by rw [ws_connect_fst]; exact rpcSafe_single _)

lemma rpcSafe_get_obs_audio_device_name (remote : Remote) (c : Bool) (dev : String) :
    rpcSafe (get_obs_audio_device_name remote c dev).2.1 := by
  simp only [get_obs_audio_device_name]
  exact rpcSafe_append (rpcSafe_ws_connect c)
    (by rw [ws_connect_fst]; exact rpcSafe_single _)

lemma rpcSafe_get_audiodevice_settings (remote : Remote) (c : Bool) (name : String) :
    rpcSafe (get_audiodevice_settings remote c name).2.1 := by
  simp only [get_audiodevice_settings]
  exact rpcSafe_append (rpcSafe_ws_connect c)
    (by rw [ws_connect_fst]; exact rpcSafe_single _)

lemma rpcSafe_report_sources (env : SoundEnv) (adm : ADM) (remote : Remote) :
    ∀ (names : List String) (c : Bool),
      rpcSafe (report_sources env adm remote c names).2.1 := by
  intro names
  induction names with
  | nil => intro c; exact rpcSafe_nil
  | cons n rest ih =>
    intro c
    simp only [report_sources]
    exact rpcSafe_append (rpcSafe_get_audiodevice_settings remote c n) (ih _)

lemma rpcSafe_print_sources_settings (env : SoundEnv) (adm : ADM) (remote : Remote)
    (c : Bool) : rpcSafe (print_sources_settings env adm remote c).2.1 := by
  simp only [print_sources_settings]
  exact rpcSafe_append
    (rpcSafe_append (rpcSafe_ws_connect c) (rpcSafe_get_audio_devices remote _))
    (rpcSafe_report_sources env adm remote _ _)

/-! Concrete instances used by the closed theorems and witnesses. -/

def admPlain : ADM := ⟨"Out X", "Mic X"⟩

def envAbort : SoundEnv := ⟨[], [⟨"Mic B", "B1"⟩]⟩

def admAbort : ADM := ⟨"Out X", "Mic B"⟩

def remoteAbort : Remote := ⟨fun r => r ++ ":src", [], fun _ => ""⟩

def cfgAbort : Config := ⟨[⟨"mic-1", "Ghost"⟩, ⟨"mic-2", "Mic B"⟩], []⟩

def envDup : SoundEnv := ⟨[], [⟨"Mic", "A"⟩, ⟨"Mic", "B"⟩]⟩

def envBoth : SoundEnv := ⟨[⟨"Spk", "S1"⟩], [⟨"Mic", "M1"⟩]⟩

def remoteBoth : Remote := ⟨fun r => r ++ ":lbl", [], fun _ => ""⟩

def cfgBoth : Config := ⟨[⟨"mic-1", "Mic"⟩], [⟨"desktop-1", "Spk"⟩]⟩

def remoteDefault : Remote := ⟨fun _ => "", ["Mic/Aux"], fun _ => "default"⟩

def envRift : SoundEnv :=
  ⟨[⟨"Speakers (USB Audio Device)", "S1"⟩], [⟨"Headset Microphone (Rift S)", "M1"⟩]⟩

def admRift : ADM := ⟨"Speakers (USB Audio Device)", "Headset Microphone (Rift S)"⟩

def envNoMic : SoundEnv := ⟨[⟨"Speakers", "S1"⟩], []⟩

def envHeadset : SoundEnv := ⟨[], [⟨"Headset Microphone", "A1"⟩]⟩

def envMicA : SoundEnv := ⟨[], [⟨"Mic A", "MA"⟩]⟩

def admOutDefault : ADM := ⟨"default", "Mic A"⟩

def admBothDefault : ADM := ⟨"default", "default"⟩

def admInDefault : ADM := ⟨"Spk X", "default"⟩

/-- C1, counterexample: a 2-route config in which exactly the first
input route is unresolvable ("Ghost" matches zero microphones) while the
second ("Mic B") resolves fine. The claim says the pass still applies
the remaining k-1 = 1 route; the code issues zero `SetSourceSettings`
calls and ends with the uncaught `ValueError`. -/
theorem pass_abort_counterexample :
    envAbort.mics.filter (fun d => d.name = "Ghost") = [] ∧
    device_by_name envAbort admAbort 9 "Mic B" true true =
      some (.ok (some ⟨"Mic B", "B1"⟩), []) ∧
    set_audio_device_settings envAbort admAbort remoteAbort 9 cfgAbort =
      ⟨[], .err .valueError⟩ :=
  ⟨rfl, rfl, rfl⟩

/-- C1 (corrected): a resolution failure on a route is reported and then
aborts the pass at that route: the routes before it are applied, the
failing route and every later route are not, and the pass ends with the
`ValueError`. -/
theorem pass_aborts_at_first_unresolvable_route
    (env : SoundEnv) (adm : ADM) (remote : Remote) (fuel : Nat)
    (pre post outs : List RouteConf) (bad : RouteConf)
    (e : PyErr) (out : List String)
    (hpre : ∀ c ∈ pre, (route_call env adm remote fuel true c).isSome)
    (hbad : device_by_name env adm fuel bad.device_name true true = some (.error e, out)) :
    set_audio_device_settings env adm remote fuel ⟨pre ++ bad :: post, outs⟩ =
      ⟨pre.filterMap (route_call env adm remote fuel true), .err e⟩ := by
  have hr := run_routes_stops env adm remote fuel true bad post e out hbad pre hpre
  simp only [set_audio_device_settings, hr]

/-- C1, witness for the corrected claim at a concrete input. -/
theorem pass_aborts_at_first_unresolvable_route_witness :
    (∀ c ∈ [(⟨"mic-2", "Mic B"⟩ : RouteConf)],
      (route_call envAbort admAbort remoteAbort 9 true c).isSome) ∧
    device_by_name envAbort admAbort 9 "Ghost" true true =
      some (.error .valueError,
        ["Windows does not have a device called Ghost",
         "\nAvailable audio input devices:", "Mic B"]) ∧
    set_audio_device_settings envAbort admAbort remoteAbort 9
        ⟨[⟨"mic-2", "Mic B"⟩] ++ ⟨"mic-1", "Ghost"⟩ :: [], []⟩ =
      ⟨[(⟨"mic-2", "Mic B"⟩ : RouteConf)].filterMap
          (route_call envAbort admAbort remoteAbort 9 true), .err .valueError⟩ :=
  ⟨by decide, rfl,
    pass_aborts_at_first_unresolvable_route envAbort admAbort remoteAbort 9
      [⟨"mic-2", "Mic B"⟩] [] [] ⟨"mic-1", "Ghost"⟩ .valueError
      ["Windows does not have a device called Ghost",
       "\nAvailable audio input devices:", "Mic B"] (by decide) rfl⟩

/-- C2 (code bug): the remote reports `device_id = "default"`, yet the
reporting sub-pass prints the "device-id unknown to Windows" line instead
of "set to 'default'": `select_device('id','default')` returns Python
`None` without raising, so `device_by_id`'s `'default'`-sentinel branch
(inside its `except IndexError`) is unreachable and `device_by_id`
returns `None`. -/
theorem default_sentinel_misreported_as_unknown :
    device_by_id envBoth admPlain "default" = .pynone ∧
    (print_sources_settings envBoth admPlain remoteDefault false).2.2 =
      ["Mic/Aux is set to a device-id unknown to Windows: 'default'"] :=
  ⟨rfl, rfl⟩

/-- C3 (code bug): resolving the Default spec for the Output direction
searches the microphone list: with the source's own configured names, a
speaker named exactly `default_output` exists, yet `get_default(False)`
raises `IndexError` because `select_device` recursed with
`is_input=True`; the Input direction works. -/
theorem default_output_resolved_against_microphones :
    envRift.speakers.filter (fun d => d.name = admRift.default_output) =
      [⟨"Speakers (USB Audio Device)", "S1"⟩] ∧
    get_default envRift admRift 9 false = some (.error .indexError) ∧
    get_default envRift admRift 9 true =
      some (.ok (some ⟨"Headset Microphone (Rift S)", "M1"⟩)) :=
  ⟨rfl, rfl, rfl⟩

/-- C4, counterexample: two microphones share the display name "Mic";
`device_by_name` silently (no error, no diagnostic output) returns the
first, contradicting the claim that the system never silently selects
among multiple matches. -/
theorem ambiguous_name_silent_first_match :
    (envDup.mics.filter (fun d => d.name = "Mic")).length = 2 ∧
    device_by_name envDup admPlain 9 "Mic" true false =
      some (.ok (some ⟨"Mic", "A"⟩), []) :=
  ⟨rfl, rfl⟩

/-- C4 (corrected): for a non-`'default'` name, `device_by_name` returns
the first device of the requested direction whose display name matches,
with no diagnostic output; in particular a unique match is returned, and
on duplicates the deterministic (but silent and undocumented) tie-break
is first match in enumeration order. -/
theorem resolve_by_name_returns_first_match
    (env : SoundEnv) (adm : ADM) (fuel : Nat) (n : String) (is_input rd : Bool)
    (d : Device) (rest : List Device) (hn : n ≠ "default")
    (hf : (dirDevices env is_input).filter (fun x => x.name = n) = d :: rest) :
    device_by_name env adm (fuel + 1) n is_input rd = some (.ok (some d), []) := by
  rw [device_by_name_of_filter env adm fuel n is_input rd hn, hf]

/-- C4, witness: a unique match is returned. -/
theorem resolve_by_name_returns_first_match_witness :
    ("Headset Microphone" ≠ "default") ∧
    (dirDevices envHeadset true).filter (fun x => x.name = "Headset Microphone") =
      [⟨"Headset Microphone", "A1"⟩] ∧
    device_by_name envHeadset admPlain 9 "Headset Microphone" true false =
      some (.ok (some ⟨"Headset Microphone", "A1"⟩), []) :=
  ⟨by decide, by decide,
    resolve_by_name_returns_first_match envHeadset admPlain 8 "Headset Microphone"
      true false ⟨"Headset Microphone", "A1"⟩ [] (by decide) (by decide)⟩

/-- C5 (confirmed): a non-`'default'` name matching zero devices of the
requested direction makes `device_by_name` raise `ValueError`, printing a
diagnostic that names the requested device followed by the device
listing; a route with that name contributes no `SetSourceSettings` call
(the loop ends in the error); and the printed listing contains every
device of the requested direction. -/
theorem resolve_by_name_not_found_raises
    (env : SoundEnv) (adm : ADM) (fuel : Nat) (n : String) (is_input rd : Bool)
    (hn : n ≠ "default")
    (hf : (dirDevices env is_input).filter (fun x => x.name = n) = []) :
    device_by_name env adm (fuel + 1) n is_input rd =
      some (.error .valueError,
        ("Windows does not have a device called " ++ n) :: print_device_listing env) ∧
    (∀ (remote : Remote) (od : String),
      run_routes env adm remote (fuel + 1) is_input [⟨od, n⟩] = ⟨[], .err .valueError⟩) ∧
    (∀ d ∈ dirDevices env is_input, d.name ∈ print_device_listing env) := by
  refine ⟨?_, ?_, ?_⟩
  · rw [device_by_name_of_filter env adm fuel n is_input rd hn, hf]
  · intro remote od
    have hb : device_by_name env adm (fuel + 1) n is_input true =
        some (.error .valueError,
          ("Windows does not have a device called " ++ n) :: print_device_listing env) := by
      rw [device_by_name_of_filter env adm fuel n is_input true hn, hf]
    exact run_routes_single_err env adm remote (fuel + 1) is_input ⟨od, n⟩ .valueError _ hb
  · intro d hd
    exact mem_print_device_listing env is_input d hd

/-- C5, witness: the spec's scenario — zero microphones named "Headset
Microphone" (here the microphone list is empty). -/
theorem resolve_by_name_not_found_raises_witness :
    ("Headset Microphone" ≠ "default") ∧
    (dirDevices envNoMic true).filter (fun x => x.name = "Headset Microphone") = [] ∧
    (device_by_name envNoMic admPlain 9 "Headset Microphone" true true =
      some (.error .valueError,
        ("Windows does not have a device called " ++ "Headset Microphone") ::
          print_device_listing envNoMic) ∧
    (∀ (remote : Remote) (od : String),
      run_routes envNoMic admPlain remote 9 true [⟨od, "Headset Microphone"⟩] =
        ⟨[], .err .valueError⟩) ∧
    (∀ d ∈ dirDevices envNoMic true, d.name ∈ print_device_listing envNoMic)) :=
  ⟨by decide, by decide,
    resolve_by_name_not_found_raises envNoMic admPlain 8 "Headset Microphone" true true
      (by decide) (by decide)⟩

/-- C6 (confirmed): a native id other than the `'default'` sentinel that
matches no device in the speakers-plus-microphones enumeration makes
`device_by_id` return the distinguished Python `None` (no exception, no
device record). -/
theorem device_by_id_not_found_returns_none
    (env : SoundEnv) (adm : ADM) (id : String) (hid : id ≠ "default")
    (hf : (env.speakers ++ env.mics).filter (fun d => d.id = id) = []) :
    device_by_id env adm id = .pynone := by
  have h1 : select_device env adm (0 + 1) .id id none = some (.error .indexError) := by
    rw [select_device_none_eq env adm 0 .id id hid]
    simp only [getProp]
    rw [hf]
  unfold device_by_id
  rw [show (1 : Nat) = 0 + 1 from rfl, h1]
  simp [hid]

/-- C6, witness. -/
theorem device_by_id_not_found_returns_none_witness :
    ("Z9" ≠ "default") ∧
    (envNoMic.speakers ++ envNoMic.mics).filter (fun d => d.id = "Z9") = [] ∧
    device_by_id envNoMic admPlain "Z9" = .pynone :=
  ⟨by decide, by decide,
    device_by_id_not_found_returns_none envNoMic admPlain "Z9" (by decide) (by decide)⟩

/-- C7 (confirmed): `connect()` is a no-op when already connected (no
transport connect, state unchanged), `disconnect()` is a no-op when
already disconnected, and every RPC-calling operation connects on demand:
in the trace of each such operation, from any starting state, every RPC
event is issued with the connected flag set. -/
theorem control_session_idempotent_connect_on_demand
    (env : SoundEnv) (adm : ADM) (remote : Remote) (c : Bool) (cmd dev name : String) :
    ws_connect true = (true, []) ∧
    ws_disconnect false = (false, []) ∧
    rpcSafe (ws_call c cmd).2 ∧
    rpcSafe (get_audio_devices remote c).2.1 ∧
    rpcSafe (get_obs_audio_device_name remote c dev).2.1 ∧
    rpcSafe (get_audiodevice_settings remote c name).2.1 ∧
    rpcSafe (print_sources_settings env adm remote c).2.1 :=
  ⟨rfl, rfl, rpcSafe_ws_call c cmd, rpcSafe_get_audio_devices remote c,
    rpcSafe_get_obs_audio_device_name remote c dev,
    rpcSafe_get_audiodevice_settings remote c name,
    rpcSafe_print_sources_settings env adm remote c⟩

/-- C8 (confirmed): when a pass completes, its `SetSourceSettings`
sequence is exactly the input routes' calls, in configuration order,
followed by the output routes' calls, in configuration order. -/
theorem apply_pass_call_order
    (env : SoundEnv) (adm : ADM) (remote : Remote) (fuel : Nat)
    (ins outs : List RouteConf)
    (h : (set_audio_device_settings env adm remote fuel ⟨ins, outs⟩).outcome = .ok) :
    (set_audio_device_settings env adm remote fuel ⟨ins, outs⟩).calls =
      ins.filterMap (route_call env adm remote fuel true) ++
      outs.filterMap (route_call env adm remote fuel false) := by
  simp only [set_audio_device_settings] at h ⊢
  cases hin : (run_routes env adm remote fuel true ins).outcome with
  | ok =>
    rw [hin] at h
    simp at h
    simp [run_routes_ok_calls env adm remote fuel true ins hin,
      run_routes_ok_calls env adm remote fuel false outs h]
  | err e => rw [hin] at h; simp at h
  | diverge => rw [hin] at h; simp at h

/-- C8, witness: one input route and one output route, both resolvable. -/
theorem apply_pass_call_order_witness :
    (set_audio_device_settings envBoth admPlain remoteBoth 9 cfgBoth).outcome = .ok ∧
    (set_audio_device_settings envBoth admPlain remoteBoth 9 cfgBoth).calls =
      [(⟨"mic-1", "Mic"⟩ : RouteConf)].filterMap
        (route_call envBoth admPlain remoteBoth 9 true) ++
      [(⟨"desktop-1", "Spk"⟩ : RouteConf)].filterMap
        (route_call envBoth admPlain remoteBoth 9 false) :=
  ⟨rfl, apply_pass_call_order envBoth admPlain remoteBoth 9
    [⟨"mic-1", "Mic"⟩] [⟨"desktop-1", "Spk"⟩] rfl⟩

/-- C9 (confirmed): with a single input route `mic-1 → "Headset
Microphone"`, no output routes, and exactly one microphone of that name
with native id "A1", the pass issues exactly one `SetSourceSettings`
call, whose source name is the remote's label for `mic-1` and whose
`device_id` is "A1" — for every remote label mapping and every defaults
configuration. -/
theorem single_input_scenario_issues_one_set_call
    (adm : ADM) (special : String → String) (srcs : List String)
    (ids : String → String) :
    set_audio_device_settings envHeadset adm ⟨special, srcs, ids⟩ 9
        ⟨[⟨"mic-1", "Headset Microphone"⟩], []⟩ =
      ⟨[(special "mic-1", "A1")], .ok⟩ := rfl

/-- C10, counterexample: the defaults-context name `default_output` is
the literal "default", yet `select_device('name','default',False)`
terminates (fuel 3 suffices): the recursion lands in the input branch and
resolves `default_input` = "Mic A". -/
theorem default_output_default_terminates :
    admOutDefault.default_output = "default" ∧
    select_device envMicA admOutDefault 3 .name "default" (some false) =
      some (.ok (some ⟨"Mic A", "MA"⟩)) :=
  ⟨rfl, rfl⟩

/-- C10 (corrected): termination of `select_device` (and `device_by_name`)
depends on `default_input` alone: if `default_input ≠ 'default'` every
call terminates within fuel 3, whatever `default_output` is; if
`default_input = 'default'` then `select_device('name','default',True)`
diverges, while `select_device('name','default',False)` diverges exactly
when additionally `default_output = 'default'` — the last conjunct gives
the converse of that "exactly when": whenever `default_output ≠
'default'` (whatever `default_input` is) the False-call terminates
within fuel 3, because the output branch re-resolves `default_output`
with `is_input=True` and a non-`'default'` name never recurses again. -/
theorem select_device_termination_profile (env : SoundEnv) (adm : ADM) :
    (adm.default_input ≠ "default" →
      ∀ (prop : DProp) (value : String) (is_input : Option Bool),
        ∃ r, select_device env adm 3 prop value is_input = some r) ∧
    (adm.default_input ≠ "default" →
      ∀ (name : String) (is_input rd : Bool),
        ∃ r, device_by_name env adm 3 name is_input rd = some r) ∧
    (adm.default_input = "default" →
      ∀ fuel, select_device env adm fuel .name "default" (some true) = none) ∧
    (adm.default_input = "default" → adm.default_output = "default" →
      ∀ fuel, select_device env adm fuel .name "default" (some false) = none) ∧
    (adm.default_output ≠ "default" →
      ∃ r, select_device env adm 3 .name "default" (some false) = some r) := by
  refine ⟨?_, ?_, ?_, ?_, ?_⟩
  · intro h prop value is_input
    exact Option.isSome_iff_exists.1 (select_device_fuel3_isSome env adm h prop value is_input)
  · intro h name is_input rd
    exact Option.isSome_iff_exists.1 (device_by_name_fuel3_isSome env adm h name is_input rd)
  · intro h fuel
    exact select_device_diverges_input env adm h fuel
  · intro hi ho fuel
    cases fuel with
    | zero => rfl
    | succ fuel =>
      rw [select_device_default_false env adm fuel .name, ho]
      exact select_device_diverges_input env adm hi fuel
  · intro ho
    refine Option.isSome_iff_exists.1 ?_
    have hstep : select_device env adm 3 .name "default" (some false) =
        select_device env adm 2 .name adm.default_output (some true) :=
      select_device_default_false env adm 2 .name
    rw [hstep]
    exact select_device_some_ne_isSome env adm 1 .name adm.default_output true ho

/-- C10, witness: both divergence conjuncts at a concrete fuel, the
fuel-3 termination conjunct at a concrete input, and the converse cell of
the biconditional — `default_input = 'default'` with `default_output ≠
'default'`, where the False-call terminates. -/
theorem select_device_termination_profile_witness :
    (admBothDefault.default_input = "default") ∧
    select_device envMicA admBothDefault 7 .name "default" (some true) = none ∧
    select_device envMicA admBothDefault 7 .name "default" (some false) = none ∧
    ((admPlain.default_input ≠ "default") ∧
      ∃ r, select_device envMicA admPlain 3 .name "Mic A" (some true) = some r) ∧
    ((admInDefault.default_input = "default") ∧ (admInDefault.default_output ≠ "default") ∧
      ∃ r, select_device envMicA admInDefault 3 .name "default" (some false) = some r) :=
  ⟨rfl,
    (select_device_termination_profile envMicA admBothDefault).2.2.1 rfl 7,
    (select_device_termination_profile envMicA admBothDefault).2.2.2.1 rfl rfl 7,
    ⟨by decide,
      (select_device_termination_profile envMicA admPlain).1 (by decide) .name "Mic A"
        (some true)⟩,
    ⟨rfl, by decide,
      (select_device_termination_profile envMicA admInDefault).2.2.2.2 (by decide)⟩⟩

end ObsAudioFixer
